import Mathlib

/-!
Verification of the `tauri-svelte-synced-store` core (`src/lib.rs`) via a
shallow embedding.

Modelling decisions, recorded once here:

* The store is heterogeneous over the Rust type parameter `T : ItemTrait`.
  We model the value universe by a small closed set of supported types
  (`i32`, `bool`, `String` — the types exercised by the spec's scenarios);
  each supported type is a `Ty` tag and each value a `DynVal`.  A
  `Pin<Box<dyn Any + Send + Sync>>` cell therefore becomes a `DynVal`, whose
  runtime type is `DynVal.ty`, and `Any::downcast_ref::<Mutex<T>>` becomes a
  comparison of the stored `DynVal.ty` against the requested `Ty`.
* `serde_json` is an external crate.  Its value type `serde_json::Value` is
  modelled by the `Json` inductive (restricted to the shapes the supported
  types produce, plus `null`).  A text string on the wire is modelled by
  `Text`: either a string that parses as a JSON document (`Text.json j`) or
  one that does not (`Text.malformed s`).  `serde_json::to_string` /
  `serde_json::json!` become `encodeJson`; `serde_json::from_str` /
  `serde_json::from_value` become `decodeAs` (shape- and type-directed).
* Rust panics (`Option::unwrap` on `None`, `expect`) and undefined behaviour
  (`Option::unwrap_unchecked` on `None`, reached when the unchecked downcast
  in `get`/`snapshot`/`emit`/`update` fails) are explicit `Outcome`s.
* Calls into the external collaborators — `AppHandle::emit` and the
  `tauri_plugin_store` disk store — and the `error!`/`warn!` reporting
  macros are recorded as an ordered `List Effect`, in source order.
  (`debug!`/`info!` tracing noise is not recorded.)  The disk store's
  contents are additionally tracked in the state so that `load` can read
  them back.
* Locks: the core's contract is synchronous and sequential per key; we model
  the sequential semantics, so locks never block and are never poisoned
  (the `Err(_) => return false` arm of `emit` is unreachable in the model).
-/

/-- Runtime type tags for the supported value types of the store. -/
inductive Ty : Type where
  | i32
  | bool
  | str
deriving DecidableEq, Repr

/-- A type-erased value, as held in one `MapAny` cell. -/
inductive DynVal : Type where
  | vint (n : Int)
  | vbool (b : Bool)
  | vstr (s : String)
deriving DecidableEq, Repr

/-- The runtime type of an erased value (what a successful downcast requires). -/
def DynVal.ty : DynVal → Ty
  | .vint _ => .i32
  | .vbool _ => .bool
  | .vstr _ => .str

/-- Model of `serde_json::Value`, restricted to the shapes produced by the
supported types, plus `null` (for foreign disk contents). -/
inductive Json : Type where
  | jnull
  | jnum (n : Int)
  | jbool (b : Bool)
  | jstr (s : String)
deriving DecidableEq, Repr

/-- Model of `serde_json::to_string::<T>(v)` and `serde_json::json!(v)`:
the canonical encoding of a supported value. -/
def encodeJson : DynVal → Json
  | .vint n => .jnum n
  | .vbool b => .jbool b
  | .vstr s => .jstr s

/-- Model of `serde_json::from_value::<T>(j)`: decoding a JSON value at the
type tagged `ty`, failing when the shape does not match the type. -/
def decodeAs : Ty → Json → Option DynVal
  | .i32, .jnum n => some (.vint n)
  | .bool, .jbool b => some (.vbool b)
  | .str, .jstr s => some (.vstr s)
  | _, _ => none

/-- A text string crossing the wire/disk boundary: either it parses as a JSON
document or it is malformed (not JSON at all). -/
inductive Text : Type where
  | json (j : Json)
  | malformed (raw : String)
deriving DecidableEq, Repr

/-- Model of `serde_json::from_str::<T>` on a text input: malformed text and
JSON of the wrong shape both fail. -/
def parseText (ty : Ty) : Text → Option DynVal
  | .json j => decodeAs ty j
  | .malformed _ => none

/-- Model of `T::default()` for the supported types. -/
def defaultVal : Ty → DynVal
  | .i32 => .vint 0
  | .bool => .vbool false
  | .str => .vstr ""

/-- The `_from_str` closure registered by `set` for type `T` (lib.rs
229-234): parse the string as `T` and box it. -/
def serFromStr (ty : Ty) (t : Text) : Except String DynVal :=
  match parseText ty t with
  | some v => .ok v
  | none => .error "parse error"

/-- The `_to_str` closure registered by `set` for type `T` (lib.rs 236-244):
downcast the erased value to `T` — reporting a type mismatch when that
fails — then serialize it. -/
def serToStr (ty : Ty) (v : DynVal) : Except String Text :=
  if v.ty = ty then .ok (.json (encodeJson v)) else .error "Type mismatch"

/-- Association-list lookup (model of `HashMap::get`). -/
def alookup (k : String) : List (String × α) → Option α
  | [] => none
  | (k', v) :: rest => if k' = k then some v else alookup k rest

/-- Association-list insert-or-replace (model of `HashMap::insert` and
`Store::set`). -/
def aupsert (k : String) (v : α) : List (String × α) → List (String × α)
  | [] => [(k, v)]
  | (k', v') :: rest => if k' = k then (k, v) :: rest else (k', v') :: aupsert k v rest

/-- One observable call into a collaborator, or one reported error/warning. -/
inductive Effect : Type where
  | emitEv (name : String) (payload : DynVal)
  | diskSet (key : String) (value : Json)
  | logError (msg : String)
  | logWarn (msg : String)
deriving DecidableEq, Repr

/-- Whether an effect is a notification published through the sink. -/
def Effect.isEmitEv : Effect → Bool
  | .emitEv _ _ => true
  | _ => false

/-- Whether an effect is a write to the persistence backend. -/
def Effect.isDiskSet : Effect → Bool
  | .diskSet _ _ => true
  | _ => false

/-- The state of one `StateSyncer` (lib.rs 103-110) together with the
contents of its persistence backend.  `data` models `MapAny` (each cell a
`DynVal`, whose `ty` is the erased concrete type); `serializers` models
`SerializersMap` (an entry for `T` is fully determined by `T`, so it is the
tag `Ty`); `syncToDisk` is `cfg.sync_to_disk`; `disk` is the backing
`tauri_plugin_store::Store` contents. -/
structure SyncerState : Type where
  data : List (String × DynVal)
  serializers : List (String × Ty)
  syncToDisk : Bool
  disk : List (String × Json)
deriving DecidableEq, Repr

/-- A fresh syncer (lib.rs 113-123) over an empty disk store. -/
def SyncerState.empty (syncToDisk : Bool) : SyncerState :=
  ⟨[], [], syncToDisk, []⟩

/-- How a call returns: normally, by a panic (an `unwrap`/`expect` failure,
which unwinds out of the store's API), or by undefined behaviour
(`unwrap_unchecked` on `None`). -/
inductive Outcome (α : Type) : Type where
  | ok (a : α)
  | panic
  | ub
deriving DecidableEq, Repr

/-- Model of `StateSyncer::set` (lib.rs 222-260): register a serializer pair
for the value's type if the key has none yet, insert the value into the data
map (replacing any previous cell), and persist when `sync_to_disk` is on.
`set` never publishes a notification. -/
def setOp (s : SyncerState) (key : String) (value : DynVal) :
    SyncerState × List Effect :=
  let sers :=
    match alookup key s.serializers with
    | none => aupsert key value.ty s.serializers
    | some _ => s.serializers
  let data := aupsert key value s.data
  if s.syncToDisk then
    (⟨data, sers, s.syncToDisk, aupsert key (encodeJson value) s.disk⟩,
      [.diskSet key (encodeJson value)])
  else
    (⟨data, sers, s.syncToDisk, s.disk⟩, [])

/-- Model of `StateSyncer::update` (lib.rs 184-220).  The `T` of the Rust
call is `newValue.ty`.  A missing key falls back to `set`; an existing key is
downcast unchecked (`ub` on a type mismatch), overwritten, persisted when
configured, and — when `emit` is true — notified synchronously. -/
def updateOp (s : SyncerState) (key : String) (newValue : DynVal) (emit : Bool) :
    Outcome Unit × SyncerState × List Effect :=
  match alookup key s.data with
  | none =>
      let r := setOp s key newValue
      (.ok (), r.1, r.2)
  | some stored =>
      if stored.ty = newValue.ty then
        let data := aupsert key newValue s.data
        let (disk, persistEffs) :=
          if s.syncToDisk then
            (aupsert key (encodeJson newValue) s.disk,
              [Effect.diskSet key (encodeJson newValue)])
          else (s.disk, [])
        let emitEffs :=
          if emit then [Effect.emitEv (key ++ "_update") newValue] else []
        (.ok (), ⟨data, s.serializers, s.syncToDisk, disk⟩,
          persistEffs ++ emitEffs)
      else (.ub, s, [])

/-- Model of `StateSyncer::update_typed_string` (lib.rs 171-182) — the
spec's `update_from_text`.  A failed parse is reported with `error!` and the
call returns without touching anything; otherwise it delegates to `update`. -/
def update_typed_string (s : SyncerState) (key : String) (ty : Ty) (value : Text)
    (emit : Bool) : Outcome Unit × SyncerState × List Effect :=
  match parseText ty value with
  | none => (.ok (), s, [.logError "failed to parse internal state"])
  | some v => updateOp s key v emit

/-- An `Item` access handle (lib.rs 34-40): it borrows the entry's cell — in
the model, the cell is identified by its key — plus the typed view `T`. -/
structure Item : Type where
  key : String
  ty : Ty
deriving DecidableEq, Repr

/-- Model of `StateSyncer::get` (lib.rs 263-281): `unwrap` panics when the
key is absent; the unchecked downcast is undefined behaviour when the stored
type differs from `T`; otherwise a handle on the entry is returned with no
effect and no state change. -/
def getOp (s : SyncerState) (key : String) (ty : Ty) :
    Outcome Item × SyncerState × List Effect :=
  match alookup key s.data with
  | none => (.panic, s, [])
  | some v => if v.ty = ty then (.ok ⟨key, ty⟩, s, []) else (.ub, s, [])

/-- Mutating the value through a held handle's lock guard: writes the cell
the handle borrows.  (Rust's typing forces the written value to have the
handle's type.) -/
def writeItem (s : SyncerState) (it : Item) (v : DynVal) : SyncerState :=
  { s with data := aupsert it.key v s.data }

/-- Model of `impl Drop for Item` (lib.rs 48-64): on release the handle
locks the cell, publishes the current value under `key ++ "_update"`, and —
when `save_to_disk` is on — writes the value to the disk store.  The `none`
branch is unreachable: a live handle borrows its cell and no operation
removes data entries. -/
def dropItem (s : SyncerState) (it : Item) : SyncerState × List Effect :=
  match alookup it.key s.data with
  | none => (s, [])
  | some v =>
      if s.syncToDisk then
        ({ s with disk := aupsert it.key (encodeJson v) s.disk },
          [.emitEv (it.key ++ "_update") v, .diskSet it.key (encodeJson v)])
      else (s, [.emitEv (it.key ++ "_update") v])

/-- Model of `StateSyncer::snapshot` (lib.rs 284-297): `unwrap` panics on a
missing key, the unchecked downcast is undefined behaviour on a type
mismatch, and otherwise a clone of the current value is returned with no
effect and no state change. -/
def snapshotOp (s : SyncerState) (key : String) (ty : Ty) :
    Outcome DynVal × SyncerState × List Effect :=
  match alookup key s.data with
  | none => (.panic, s, [])
  | some v => if v.ty = ty then (.ok v, s, []) else (.ub, s, [])

/-- Model of `StateSyncer::emit` (lib.rs 300-321): `unwrap` panics on a
missing key, the unchecked downcast is undefined behaviour on a type
mismatch, and otherwise the current value is published under
`name ++ "_update"` and `true` is returned.  (The `false` return on a
poisoned lock is unreachable in the sequential model.) -/
def emitOp (s : SyncerState) (name : String) (ty : Ty) :
    Outcome Bool × SyncerState × List Effect :=
  match alookup name s.data with
  | none => (.panic, s, [])
  | some v =>
      if v.ty = ty then (.ok true, s, [.emitEv (name ++ "_update") v])
      else (.ub, s, [])

/-- Model of `StateSyncer::load` (lib.rs 125-155): with `sync_to_disk` off,
warn and `set` the default; otherwise read the disk store, falling back to
the default when the key is absent or does not decode at `T`, `set` the
result in memory, and return it. -/
def loadOp (s : SyncerState) (key : String) (ty : Ty) :
    DynVal × SyncerState × List Effect :=
  if s.syncToDisk = false then
    let r := setOp s key (defaultVal ty)
    (defaultVal ty, r.1,
      .logWarn "load called with sync_to_disk disabled, returning default" :: r.2)
  else
    let (newValue, logs) :=
      match alookup key s.disk with
      | some j =>
          match decodeAs ty j with
          | some v => (v, [])
          | none =>
              (defaultVal ty,
                [Effect.logError "value for key did not match specified type"])
      | none => (defaultVal ty, [Effect.logWarn "load called for key not on disk"])
    let r := setOp s key newValue
    (newValue, r.1, logs ++ r.2)

/-- Model of `StateSyncer::save` (lib.rs 157-165): with `sync_to_disk` off,
report and do nothing; otherwise snapshot the in-memory value (panicking on
a missing key, undefined behaviour on a type mismatch, like `snapshot`) and
write it to the disk store. -/
def saveOp (s : SyncerState) (key : String) (ty : Ty) :
    Outcome Unit × SyncerState × List Effect :=
  if s.syncToDisk = false then
    (.ok (), s, [.logError "save called with sync_to_disk disabled, ignoring"])
  else
    match alookup key s.data with
    | none => (.panic, s, [])
    | some v =>
        if v.ty = ty then
          (.ok (), { s with disk := aupsert key (encodeJson v) s.disk },
            [.diskSet key (encodeJson v)])
        else (.ub, s, [])

/-- One call into the store's public API (used to state whole-store
invariants quantified over every operation). -/
inductive Op : Type where
  | set (key : String) (v : DynVal)
  | update (key : String) (v : DynVal) (notify : Bool)
  | updateTypedString (key : String) (ty : Ty) (t : Text) (notify : Bool)
  | load (key : String) (ty : Ty)
  | save (key : String) (ty : Ty)
  | get (key : String) (ty : Ty)
  | snapshot (key : String) (ty : Ty)
  | emit (name : String) (ty : Ty)
  | write (it : Item) (v : DynVal)
  | dropIt (it : Item)
deriving DecidableEq, Repr

/-- The state reached after one API call (discarding result and effects). -/
def stepOp (s : SyncerState) : Op → SyncerState
  | .set key v => (setOp s key v).1
  | .update key v notify => (updateOp s key v notify).2.1
  | .updateTypedString key ty t notify => (update_typed_string s key ty t notify).2.1
  | .load key ty => (loadOp s key ty).2.1
  | .save key ty => (saveOp s key ty).2.1
  | .get key ty => (getOp s key ty).2.1
  | .snapshot key ty => (snapshotOp s key ty).2.1
  | .emit name ty => (emitOp s name ty).2.1
  | .write it v => writeItem s it v
  | .dropIt it => (dropItem s it).1

/-! ### Helper lemmas -/

theorem alookup_aupsert_self {α : Type} (k : String) (v : α) (l : List (String × α)) :
    alookup k (aupsert k v l) = some v := by
  induction l with
  | nil => simp [aupsert, alookup]
  | cons p rest ih =>
      obtain ⟨k', v'⟩ := p
      by_cases hk : k' = k <;> simp [aupsert, alookup, hk, ih]

theorem alookup_aupsert_ne {α : Type} (k k' : String) (v : α) (l : List (String × α))
    (hne : k' ≠ k) : alookup k (aupsert k' v l) = alookup k l := by
  induction l with
  | nil => simp [aupsert, alookup, hne]
  | cons p rest ih =>
      obtain ⟨k'', v''⟩ := p
      by_cases hk : k'' = k' <;> by_cases hk2 : k'' = k <;>
        simp_all [aupsert, alookup]

theorem decodeAs_ty (ty : Ty) (j : Json) (v : DynVal) (h : decodeAs ty j = some v) :
    v.ty = ty := by
  cases ty <;> cases j <;> simp [decodeAs] at h <;> simp [← h, DynVal.ty]

theorem defaultVal_ty (ty : Ty) : (defaultVal ty).ty = ty := by
  cases ty <;> rfl

theorem decodeAs_encodeJson (v : DynVal) : decodeAs v.ty (encodeJson v) = some v := by
  cases v <;> rfl

theorem setOp_state (s : SyncerState) (key : String) (v : DynVal) :
    (setOp s key v).1 =
      ⟨aupsert key v s.data,
        (match alookup key s.serializers with
          | none => aupsert key v.ty s.serializers
          | some _ => s.serializers),
        s.syncToDisk,
        if s.syncToDisk then aupsert key (encodeJson v) s.disk else s.disk⟩ := by
  unfold setOp
  cases s.syncToDisk <;> simp

theorem setOp_effects (s : SyncerState) (key : String) (v : DynVal) :
    (setOp s key v).2 =
      if s.syncToDisk then [.diskSet key (encodeJson v)] else [] := by
  unfold setOp
  cases s.syncToDisk <;> simp

theorem setOp_serializers_preserved (s : SyncerState) (key k : String) (v : DynVal)
    (ty : Ty) (h : alookup k s.serializers = some ty) :
    alookup k (setOp s key v).1.serializers = some ty := by
  rw [setOp_state]
  by_cases hk : key = k
  · subst hk
    simp [h]
  · cases hser : alookup key s.serializers <;>
      simp [hser, alookup_aupsert_ne k key _ _ hk, h]

theorem snapshotOp_lookup (s : SyncerState) (key : String) (v : DynVal)
    (h : alookup key s.data = some v) :
    snapshotOp s key v.ty = (.ok v, s, []) := by
  simp [snapshotOp, h]

/-! ### Claim theorems -/

/-- C1: the claim says `set(key, v : T)` followed by `get::<U>(key)` with
`U != T` yields a reported `TypeMismatch` and that the runtime type check
happens on every typed access.  The code instead downcasts with
`Option::unwrap_unchecked` (lib.rs 267-271, 288-292): after
`set("volume", 50_i32)`, both `get::<String>("volume")` and
`snapshot::<String>("volume")` reach undefined behaviour — the downcast
fails and its result is consumed unchecked — and no `TypeMismatch` is ever
reported.  This theorem evaluates the model at that failing input. -/
theorem C1_wrong_type_access_is_undefined_behaviour :
    (getOp (setOp (SyncerState.empty false) "volume" (.vint 50)).1 "volume" .str).1
        = Outcome.ub ∧
    (snapshotOp (setOp (SyncerState.empty false) "volume" (.vint 50)).1 "volume" .str).1
        = Outcome.ub := by
  decide

/-- C2: releasing an Access Handle publishes exactly one notification, whose
payload is the value held at release time (the lookup is made in the state
`s` current when the handle drops, not the state at acquisition), under the
event name `key ++ "_update"`, and writes that value to the persistence
backend if and only if `sync_to_disk` is enabled (lib.rs 48-64). -/
theorem C2_drop_notifies_release_value (s : SyncerState) (it : Item) (v : DynVal)
    (h : alookup it.key s.data = some v) :
    (dropItem s it).2 =
      .emitEv (it.key ++ "_update") v ::
        (if s.syncToDisk then [.diskSet it.key (encodeJson v)] else []) ∧
    ((dropItem s it).2.filter Effect.isEmitEv).length = 1 := by
  cases hsd : s.syncToDisk <;>
    simp [dropItem, h, hsd, Effect.isEmitEv, List.filter]

/-- A store whose `"volume"` entry was set to `50`, then mutated to `60`
through a held handle: the drop-time value differs from the acquisition-time
value. -/
def c2SampleState : SyncerState :=
  writeItem (setOp (SyncerState.empty true) "volume" (.vint 50)).1
    ⟨"volume", .i32⟩ (.vint 60)

theorem C2_drop_notifies_release_value_witness :
    alookup "volume" c2SampleState.data = some (.vint 60) ∧
    ((dropItem c2SampleState ⟨"volume", .i32⟩).2 =
        .emitEv ("volume" ++ "_update") (.vint 60) ::
          (if c2SampleState.syncToDisk then
            [.diskSet "volume" (encodeJson (.vint 60))] else []) ∧
      ((dropItem c2SampleState ⟨"volume", .i32⟩).2.filter Effect.isEmitEv).length = 1) :=
  ⟨by decide,
    C2_drop_notifies_release_value c2SampleState ⟨"volume", .i32⟩ (.vint 60) (by decide)⟩

/-- C3: the claim says `get`/`snapshot`/`emit` on a key never `set` report a
`KeyNotFound` condition and are not fatal.  The code instead calls
`Option::unwrap` on the failed map lookup (lib.rs 266, 287, 303), which
panics and unwinds across the store's API boundary.  This theorem evaluates
the model on a fresh store at the missing key `"missing"`. -/
theorem C3_missing_key_panics :
    (getOp (SyncerState.empty false) "missing" .i32).1 = Outcome.panic ∧
    (snapshotOp (SyncerState.empty false) "missing" .i32).1 = Outcome.panic ∧
    (emitOp (SyncerState.empty false) "missing" .i32).1 = Outcome.panic := by
  decide

/-- C9: for an established entry, `snapshot` returns a clone of the current
value and has no side effects: no notification, no persistence write, and
the returned state — data, serializer registry, and disk contents — is the
input state unchanged (lib.rs 284-297). -/
theorem C9_snapshot_is_pure_read (s : SyncerState) (key : String) (v : DynVal)
    (h : alookup key s.data = some v) :
    snapshotOp s key v.ty = (.ok v, s, []) :=
  snapshotOp_lookup s key v h

theorem C9_snapshot_is_pure_read_witness :
    alookup "volume" (setOp (SyncerState.empty false) "volume" (.vint 50)).1.data
        = some (.vint 50) ∧
    snapshotOp (setOp (SyncerState.empty false) "volume" (.vint 50)).1 "volume"
        (DynVal.vint 50).ty =
      (.ok (.vint 50), (setOp (SyncerState.empty false) "volume" (.vint 50)).1, []) :=
  ⟨by decide,
    C9_snapshot_is_pure_read (setOp (SyncerState.empty false) "volume" (.vint 50)).1
      "volume" (.vint 50) (by decide)⟩

/-- C10: `update` on a key not yet present delegates to `set` (same final
state, same effects) for either value of `notify`, and publishes no
notification even when `notify` is true, because `set` never emits
(lib.rs 191-195, 222-260). -/
theorem C10_update_new_key_is_set (s : SyncerState) (key : String) (v : DynVal)
    (notify : Bool) (h : alookup key s.data = none) :
    (updateOp s key v notify).2.1 = (setOp s key v).1 ∧
    (updateOp s key v notify).2.2 = (setOp s key v).2 ∧
    (updateOp s key v notify).2.2.filter Effect.isEmitEv = [] := by
  refine ⟨by simp [updateOp, h], by simp [updateOp, h], ?_⟩
  have h2 : (updateOp s key v notify).2.2 = (setOp s key v).2 := by
    simp [updateOp, h]
  rw [h2, setOp_effects]
  cases s.syncToDisk <;> simp [Effect.isEmitEv]

theorem C10_update_new_key_is_set_witness :
    alookup "volume" (SyncerState.empty true).data = none ∧
    ((updateOp (SyncerState.empty true) "volume" (.vint 50) true).2.1 =
        (setOp (SyncerState.empty true) "volume" (.vint 50)).1 ∧
      (updateOp (SyncerState.empty true) "volume" (.vint 50) true).2.2 =
        (setOp (SyncerState.empty true) "volume" (.vint 50)).2 ∧
      (updateOp (SyncerState.empty true) "volume" (.vint 50) true).2.2.filter
          Effect.isEmitEv = []) :=
  ⟨by decide,
    C10_update_new_key_is_set (SyncerState.empty true) "volume" (.vint 50) true
      (by decide)⟩

/-- C4: `update(key, value, notify)` behaves like `set(key, value)` when the
key is absent; when the key is present (with the matching established type —
the unchecked downcast makes anything else undefined behaviour, see C1) it
replaces the stored value, writes the new value to the persistence backend
exactly when `sync_to_disk` is configured, and publishes exactly one
synchronous notification of the new value exactly when `notify` is true
(lib.rs 184-220). -/
theorem C4_update_semantics (s : SyncerState) (key : String) (newv : DynVal)
    (notify : Bool) (v : DynVal) :
    (alookup key s.data = none →
      updateOp s key newv notify =
        (.ok (), (setOp s key newv).1, (setOp s key newv).2)) ∧
    (alookup key s.data = some v → v.ty = newv.ty →
      (updateOp s key newv notify).1 = .ok () ∧
      alookup key (updateOp s key newv notify).2.1.data = some newv ∧
      (updateOp s key newv notify).2.2.filter Effect.isDiskSet =
        (if s.syncToDisk then [.diskSet key (encodeJson newv)] else []) ∧
      (updateOp s key newv notify).2.2.filter Effect.isEmitEv =
        (if notify then [.emitEv (key ++ "_update") newv] else [])) := by
  constructor
  · intro h
    simp [updateOp, h]
  · intro h hty
    have hred : updateOp s key newv notify =
        (.ok (), ⟨aupsert key newv s.data, s.serializers, s.syncToDisk,
            if s.syncToDisk then aupsert key (encodeJson newv) s.disk else s.disk⟩,
          (if s.syncToDisk then [Effect.diskSet key (encodeJson newv)] else []) ++
            (if notify then [Effect.emitEv (key ++ "_update") newv] else [])) := by
      cases hsd : s.syncToDisk <;> simp [updateOp, h, hty, hsd]
    rw [hred]
    refine ⟨rfl, alookup_aupsert_self key newv s.data, ?_, ?_⟩ <;>
      cases s.syncToDisk <;> cases notify <;>
        simp [Effect.isDiskSet, Effect.isEmitEv, List.filter]

theorem C4_update_semantics_witness :
    alookup "volume" (setOp (SyncerState.empty true) "volume" (.vint 50)).1.data
        = some (.vint 50) ∧
    (DynVal.vint 50).ty = (DynVal.vint 60).ty ∧
    ((updateOp (setOp (SyncerState.empty true) "volume" (.vint 50)).1 "volume"
        (.vint 60) true).1 = .ok () ∧
      alookup "volume" (updateOp (setOp (SyncerState.empty true) "volume" (.vint 50)).1
          "volume" (.vint 60) true).2.1.data = some (.vint 60) ∧
      (updateOp (setOp (SyncerState.empty true) "volume" (.vint 50)).1 "volume"
          (.vint 60) true).2.2.filter Effect.isDiskSet =
        (if (setOp (SyncerState.empty true) "volume" (.vint 50)).1.syncToDisk then
          [.diskSet "volume" (encodeJson (.vint 60))] else []) ∧
      (updateOp (setOp (SyncerState.empty true) "volume" (.vint 50)).1 "volume"
          (.vint 60) true).2.2.filter Effect.isEmitEv =
        (if true then [.emitEv ("volume" ++ "_update") (.vint 60)] else [])) :=
  ⟨by decide, by decide,
    (C4_update_semantics (setOp (SyncerState.empty true) "volume" (.vint 50)).1
        "volume" (.vint 60) true (.vint 50)).2 (by decide) (by decide)⟩

/-- C5: for an established entry, `update_typed_string` on text that fails
to decode at the established type reports the failure (`error!`) and is
otherwise a no-op — the state (in-memory value, serializer registry, and
disk contents) is returned unchanged, no notification and no persistence
write appear among the effects, and a subsequent `snapshot` still returns
the old value (lib.rs 171-182). -/
theorem C5_decode_error_is_noop (s : SyncerState) (key : String) (v : DynVal)
    (ty : Ty) (t : Text) (notify : Bool)
    (hest : alookup key s.data = some v) (hfail : parseText ty t = none) :
    update_typed_string s key ty t notify =
      (.ok (), s, [.logError "failed to parse internal state"]) ∧
    (snapshotOp (update_typed_string s key ty t notify).2.1 key v.ty).1 = .ok v := by
  have h1 : update_typed_string s key ty t notify =
      (.ok (), s, [.logError "failed to parse internal state"]) := by
    simp [update_typed_string, hfail]
  refine ⟨h1, ?_⟩
  rw [h1, snapshotOp_lookup s key v hest]

theorem C5_decode_error_is_noop_witness :
    alookup "volume" (setOp (SyncerState.empty false) "volume" (.vint 50)).1.data
        = some (.vint 50) ∧
    parseText .i32 (.malformed "not-a-number") = none ∧
    (update_typed_string (setOp (SyncerState.empty false) "volume" (.vint 50)).1
        "volume" .i32 (.malformed "not-a-number") true =
      (.ok (), (setOp (SyncerState.empty false) "volume" (.vint 50)).1,
        [.logError "failed to parse internal state"]) ∧
      (snapshotOp (update_typed_string
          (setOp (SyncerState.empty false) "volume" (.vint 50)).1
          "volume" .i32 (.malformed "not-a-number") true).2.1 "volume"
          (DynVal.vint 50).ty).1 = .ok (.vint 50)) :=
  ⟨by decide, by decide,
    C5_decode_error_is_noop (setOp (SyncerState.empty false) "volume" (.vint 50)).1
      "volume" (.vint 50) .i32 (.malformed "not-a-number") true
      (by decide) (by decide)⟩

/-- Snapshot after a `set` of the same key returns exactly the set value. -/
theorem snapshot_after_set (s : SyncerState) (key : String) (w : DynVal)
    (ty : Ty) (hw : w.ty = ty) :
    (snapshotOp (setOp s key w).1 key ty).1 = .ok w := by
  have hdata : alookup key (setOp s key w).1.data = some w := by
    rw [setOp_state]; exact alookup_aupsert_self key w s.data
  have := snapshotOp_lookup (setOp s key w).1 key w hdata
  rw [hw] at this
  rw [this]

/-- C6: `load::<T>(key)` returns the decoded backend value when persistence
is enabled, the backend holds the key, and decoding succeeds at `T`; in
every other case it returns `T::default()`.  In all cases the returned
value is `set` in memory, so a subsequent `snapshot` of the key returns the
same value `load` returned (lib.rs 125-155). -/
theorem C6_load_decodes_or_defaults (s : SyncerState) (key : String) (ty : Ty) :
    (loadOp s key ty).1 =
      (if s.syncToDisk then
        (match alookup key s.disk with
          | some j => (decodeAs ty j).getD (defaultVal ty)
          | none => defaultVal ty)
       else defaultVal ty) ∧
    alookup key (loadOp s key ty).2.1.data = some (loadOp s key ty).1 ∧
    (snapshotOp (loadOp s key ty).2.1 key ty).1 = .ok (loadOp s key ty).1 := by
  have hdata : ∀ w : DynVal, alookup key (setOp s key w).1.data = some w := by
    intro w; rw [setOp_state]; exact alookup_aupsert_self key w s.data
  cases hsd : s.syncToDisk with
  | false =>
      refine ⟨by simp [loadOp, hsd], ?_, ?_⟩
      · simpa [loadOp, hsd] using hdata (defaultVal ty)
      · simpa [loadOp, hsd] using
          snapshot_after_set s key (defaultVal ty) ty (defaultVal_ty ty)
  | true =>
      cases hdisk : alookup key s.disk with
      | none =>
          refine ⟨by simp [loadOp, hsd, hdisk], ?_, ?_⟩
          · simpa [loadOp, hsd, hdisk] using hdata (defaultVal ty)
          · simpa [loadOp, hsd, hdisk] using
              snapshot_after_set s key (defaultVal ty) ty (defaultVal_ty ty)
      | some j =>
          cases hdec : decodeAs ty j with
          | none =>
              refine ⟨by simp [loadOp, hsd, hdisk, hdec], ?_, ?_⟩
              · simpa [loadOp, hsd, hdisk, hdec] using hdata (defaultVal ty)
              · simpa [loadOp, hsd, hdisk, hdec] using
                  snapshot_after_set s key (defaultVal ty) ty (defaultVal_ty ty)
          | some w =>
              refine ⟨by simp [loadOp, hsd, hdisk, hdec], ?_, ?_⟩
              · simpa [loadOp, hsd, hdisk, hdec] using hdata w
              · simpa [loadOp, hsd, hdisk, hdec] using
                  snapshot_after_set s key w ty (decodeAs_ty ty j w hdec)

/-- C7: the serializer pair registered at the first `set(key, v : T)` is the
pair for `T` (lib.rs 226-252), and that pair satisfies the round-trip
equation: for every value `w` of type `T`, `_to_str` succeeds — producing
the canonical encoding — and `_from_str` decodes that encoding back to
exactly `w` (lib.rs 229-244). -/
theorem C7_registered_pair_roundtrips (s : SyncerState) (key : String)
    (v w : DynVal) (hfresh : alookup key s.serializers = none)
    (hty : w.ty = v.ty) :
    alookup key (setOp s key v).1.serializers = some v.ty ∧
    serToStr v.ty w = .ok (.json (encodeJson w)) ∧
    serFromStr v.ty (.json (encodeJson w)) = .ok w := by
  refine ⟨?_, ?_, ?_⟩
  · rw [setOp_state]
    simp only [hfresh]
    exact alookup_aupsert_self key v.ty s.serializers
  · simp [serToStr, hty]
  · rw [← hty]
    simp [serFromStr, parseText, decodeAs_encodeJson]

theorem C7_registered_pair_roundtrips_witness :
    alookup "volume" (SyncerState.empty false).serializers = none ∧
    (DynVal.vint 7).ty = (DynVal.vint 50).ty ∧
    (alookup "volume" (setOp (SyncerState.empty false) "volume" (.vint 50)).1.serializers
        = some (DynVal.vint 50).ty ∧
      serToStr (DynVal.vint 50).ty (.vint 7) = .ok (.json (encodeJson (.vint 7))) ∧
      serFromStr (DynVal.vint 50).ty (.json (encodeJson (.vint 7))) = .ok (.vint 7)) :=
  ⟨by decide, by decide,
    C7_registered_pair_roundtrips (SyncerState.empty false) "volume"
      (.vint 50) (.vint 7) (by decide) (by decide)⟩

/-- The `update` path never removes or replaces an existing serializer
registration (its existing-key branch leaves the registry untouched; its
new-key branch delegates to `set`, which only adds). -/
theorem updateOp_serializers_preserved (s : SyncerState) (key k : String)
    (v : DynVal) (b : Bool) (ty : Ty) (h : alookup k s.serializers = some ty) :
    alookup k (updateOp s key v b).2.1.serializers = some ty := by
  cases hd : alookup key s.data with
  | none =>
      simpa [updateOp, hd] using setOp_serializers_preserved s key k v ty h
  | some stored =>
      by_cases hty : stored.ty = v.ty <;>
        cases hsd : s.syncToDisk <;> simp [updateOp, hd, hty, hsd, h]

/-- The `load` path ends in a `set`, which never removes or replaces an
existing serializer registration. -/
theorem loadOp_serializers_preserved (s : SyncerState) (key k : String)
    (ty rty : Ty) (h : alookup k s.serializers = some ty) :
    alookup k (loadOp s key rty).2.1.serializers = some ty := by
  cases hsd : s.syncToDisk with
  | false =>
      simpa [loadOp, hsd] using
        setOp_serializers_preserved s key k (defaultVal rty) ty h
  | true =>
      cases hdisk : alookup key s.disk with
      | none =>
          simpa [loadOp, hsd, hdisk] using
            setOp_serializers_preserved s key k (defaultVal rty) ty h
      | some j =>
          cases hdec : decodeAs rty j with
          | none =>
              simpa [loadOp, hsd, hdisk, hdec] using
                setOp_serializers_preserved s key k (defaultVal rty) ty h
          | some w =>
              simpa [loadOp, hsd, hdisk, hdec] using
                setOp_serializers_preserved s key k w ty h

/-- No public operation removes or replaces an existing serializer
registration. -/
theorem stepOp_serializers_preserved (s : SyncerState) (op : Op) (k : String)
    (ty : Ty) (h : alookup k s.serializers = some ty) :
    alookup k (stepOp s op).serializers = some ty := by
  cases op with
  | set key v => exact setOp_serializers_preserved s key k v ty h
  | update key v notify => exact updateOp_serializers_preserved s key k v notify ty h
  | updateTypedString key t0 t notify =>
      cases hp : parseText t0 t with
      | none => simpa [stepOp, update_typed_string, hp] using h
      | some v =>
          simpa [stepOp, update_typed_string, hp] using
            updateOp_serializers_preserved s key k v notify ty h
  | load key rty => exact loadOp_serializers_preserved s key k ty rty h
  | save key rty =>
      unfold stepOp saveOp
      cases hsd : s.syncToDisk with
      | false => simpa using h
      | true =>
          cases hd : alookup key s.data with
          | none => simpa [hd] using h
          | some v => by_cases hty : v.ty = rty <;> simp [hd, hty, h]
  | get key rty =>
      unfold stepOp getOp
      cases hd : alookup key s.data with
      | none => simpa [hd] using h
      | some v => by_cases hty : v.ty = rty <;> simp [hd, hty, h]
  | snapshot key rty =>
      unfold stepOp snapshotOp
      cases hd : alookup key s.data with
      | none => simpa [hd] using h
      | some v => by_cases hty : v.ty = rty <;> simp [hd, hty, h]
  | emit name rty =>
      unfold stepOp emitOp
      cases hd : alookup name s.data with
      | none => simpa [hd] using h
      | some v => by_cases hty : v.ty = rty <;> simp [hd, hty, h]
  | write it v => simpa [stepOp, writeItem] using h
  | dropIt it =>
      unfold stepOp dropItem
      cases hd : alookup it.key s.data with
      | none => simpa [hd] using h
      | some v => cases hsd : s.syncToDisk <;> simp [hd, hsd, h]

/-- C8: the serializer registry entry for a key is created at most once, on
the first `set` for that key — a `set` of a value `v` when no entry exists
registers the pair for `v`'s type; a `set` when an entry exists leaves the
whole registry unmodified — and no public operation (quantified over `Op`)
ever removes or replaces an existing registration (lib.rs 225-253). -/
theorem C8_registry_created_once_immutable (s : SyncerState) (op : Op)
    (key : String) (ty : Ty) (v : DynVal) :
    (alookup key s.serializers = some ty →
      alookup key (stepOp s op).serializers = some ty) ∧
    (alookup key s.serializers = some ty →
      (stepOp s (.set key v)).serializers = s.serializers) ∧
    (alookup key s.serializers = none →
      alookup key (stepOp s (.set key v)).serializers = some v.ty) := by
  refine ⟨fun h => stepOp_serializers_preserved s op key ty h, fun h => ?_, fun h => ?_⟩
  · show (setOp s key v).1.serializers = s.serializers
    rw [setOp_state]
    simp [h]
  · show alookup key (setOp s key v).1.serializers = some v.ty
    rw [setOp_state]
    simp only [h]
    exact alookup_aupsert_self key v.ty s.serializers

theorem C8_registry_created_once_immutable_witness :
    alookup "volume" (setOp (SyncerState.empty false) "volume" (.vint 50)).1.serializers
        = some Ty.i32 ∧
    alookup "volume" (stepOp (setOp (SyncerState.empty false) "volume" (.vint 50)).1
        (.update "volume" (.vint 60) true)).serializers = some Ty.i32 ∧
    (stepOp (setOp (SyncerState.empty false) "volume" (.vint 50)).1
        (.set "volume" (.vint 60))).serializers =
      (setOp (SyncerState.empty false) "volume" (.vint 50)).1.serializers :=
  ⟨by decide,
    (C8_registry_created_once_immutable
        (setOp (SyncerState.empty false) "volume" (.vint 50)).1
        (.update "volume" (.vint 60) true) "volume" Ty.i32 (.vint 60)).1 (by decide),
    (C8_registry_created_once_immutable
        (setOp (SyncerState.empty false) "volume" (.vint 50)).1
        (.update "volume" (.vint 60) true) "volume" Ty.i32 (.vint 60)).2.1 (by decide)⟩
